import Mathlib

/-!
# Verification of the Wikipedia Phi-2 assistant (`app.py`)

A shallow embedding of the single-file Streamlit application.  External
collaborators (the filesystem, the Google-Drive download, the Wikipedia
lookup, and the llama.cpp inference engine) are modelled as explicit state
or as oracle functions supplied by the environment; everything the script
itself computes (path construction, truncation, prompt templates, output
stripping, UI gating) is translated directly from the source.
-/

namespace WikipediaPhi2

/-! ## Configuration constants (`app.py` lines 8-12) -/

/-- `MODEL_DIR = "models"` -/
def MODEL_DIR : String := "models"

/-- `MODEL_PATH = os.path.join(MODEL_DIR, "phi-2.Q4_K_M.gguf")` -/
def MODEL_PATH : String := MODEL_DIR ++ "/" ++ "phi-2.Q4_K_M.gguf"

/-- The fixed Google Drive URL the model artifact is fetched from. -/
def MODEL_DRIVE_URL : String :=
  "https://drive.google.com/uc?id=1bquBi_ccK4XDsatiHZsucysPUBXzmga6"

/-! ## Model provisioning (`download_model`, lines 17-25) -/

/-- The part of the filesystem the app touches: whether the `models`
directory exists and whether the model artifact file exists at
`MODEL_PATH`. -/
structure FSState where
  modelDirExists : Bool
  modelFileExists : Bool
deriving DecidableEq

/-- Observable effects of one `download_model` call: how many network
downloads were started and which status messages were shown. -/
structure DownloadTrace where
  downloads : Nat
  messages : List String
deriving DecidableEq

/-- `download_model()`: `os.makedirs(MODEL_DIR, exist_ok=True)`, then
download from `MODEL_DRIVE_URL` to `MODEL_PATH` only when the file is
absent. -/
def download_model (fs : FSState) : FSState × DownloadTrace :=
  let fs1 : FSState := ⟨true, fs.modelFileExists⟩
  if fs1.modelFileExists then
    (fs1, ⟨0, ["Model already available ✅"]⟩)
  else
    (⟨true, true⟩,
     ⟨1, ["Downloading Phi-2 model... This may take a few minutes ⏳",
          "Model downloaded successfully ✅"]⟩)

/-! ## Model handle cache (`load_model`, lines 27-31) -/

/-- A constructed `Llama(...)` inference-engine handle.  `instanceId` is a
fresh tag per construction so that handle identity (the same Python object
versus a newly constructed one) is observable in the model. -/
structure Llama where
  model_path : String
  n_ctx : Nat
  n_threads : Nat
  instanceId : Nat
deriving DecidableEq

/-- Process-wide state backing `@st.cache_resource`: the memoized handle,
a fresh-id counter, and how many `Llama(...)` constructions have run. -/
structure AppState where
  cache : Option Llama
  nextId : Nat
  loadCount : Nat
deriving DecidableEq

/-- `load_model()` under `@st.cache_resource`: return the cached handle if
present; otherwise construct `Llama(model_path=MODEL_PATH, n_ctx=2048,
n_threads=8)`, memoize it, and return it. -/
def load_model (s : AppState) : Llama × AppState :=
  match s.cache with
  | some llm => (llm, s)
  | none =>
      let llm : Llama := ⟨MODEL_PATH, 2048, 8, s.nextId⟩
      (llm, ⟨some llm, s.nextId + 1, s.loadCount + 1⟩)

/-- `n` further calls of `load_model`, threading the cache state. -/
def call_model_n : Nat → AppState → AppState
  | 0, s => s
  | n + 1, s => call_model_n n (load_model s).2

/-! ## Content fetcher (`get_wiki_content`, lines 33-41) -/

/-- A Wikipedia page as returned by a successful `wikipedia.page(topic)`. -/
structure WikiPage where
  content : String
deriving DecidableEq

/-- A lookup oracle: `wikipedia.page(topic)` either returns a page or
raises an exception carrying a message. -/
def WikiOracle : Type := String → Except String WikiPage

/-- Python slicing `s[:n]`: the first `n` characters of `s`. -/
def pySlice (s : String) (n : Nat) : String := ⟨s.data.take n⟩

/-- `get_wiki_content(topic)`: on success return `page.content[:6000]`;
on any exception show one `st.error` message and return `None`.  The
second component is the list of diagnostic messages emitted. -/
def get_wiki_content (wiki : WikiOracle) (topic : String) :
    Option String × List String :=
  match wiki topic with
  | Except.ok page => (some (pySlice page.content 6000), [])
  | Except.error e => (none, ["❌ Error fetching content: " ++ e])

/-! ## Prompt builder / responder (`summarize_content`, lines 43-67) -/

/-- The answer-template f-string (lines 46-55), with `content` and
`question` interpolated verbatim. -/
def answer_prompt (content question : String) : String :=
  "\nYou are an AI assistant. Based on the Wikipedia content below,\nanswer the question clearly and concisely.\n\nWikipedia content:\n\"\"\""
    ++ content
    ++ "\"\"\"\n\nQuestion: "
    ++ question
    ++ "\nAnswer:\n"

/-- The summarize-template f-string (lines 57-65), with `topic` and
`content` interpolated verbatim. -/
def summarize_prompt (topic content : String) : String :=
  "\nSummarize the following Wikipedia content about '"
    ++ topic
    ++ "' in a clear,\nstructured, and easy-to-read manner.\n\nWikipedia content:\n\"\"\""
    ++ content
    ++ "\"\"\"\n\nSummary:\n"

/-- The prompt `summarize_content` builds.  Python `if question:` is
false exactly when `question` is `None` or the empty string. -/
def built_prompt (topic content : String) : Option String → String
  | some q => if q.isEmpty then summarize_prompt topic content else answer_prompt content q
  | none => summarize_prompt topic content

/-- One element of the `"choices"` array of a llama.cpp completion. -/
structure LlamaChoice where
  text : String
deriving DecidableEq

/-- The structured result of `llm(prompt, max_tokens=..., temperature=...)`. -/
structure LlamaOutput where
  choices : List LlamaChoice
deriving DecidableEq

/-- An inference-engine oracle: prompt, `max_tokens`, `temperature` to a
completion result. -/
def LlamaFn : Type := String → Nat → ℚ → LlamaOutput

/-- Python `str.strip()`: drop the longest whitespace prefix and the
longest whitespace suffix. -/
def pyStrip (s : String) : String :=
  ⟨List.rdropWhile Char.isWhitespace (List.dropWhile Char.isWhitespace s.data)⟩

/-- `summarize_content(llm, topic, content, question)`: build the prompt,
call the engine with `max_tokens=512, temperature=0.6`, and return
`output["choices"][0]["text"].strip()`. -/
def summarize_content (llm : LlamaFn) (topic content : String)
    (question : Option String) : String :=
  let prompt := built_prompt topic content question
  let output := llm prompt 512 (6 / 10)
  pyStrip ((output.choices.headD ⟨""⟩).text)

/-! ## Interactive shell (module-level Streamlit flow, lines 71-112) -/

/-- The radio selection at line 97. -/
inductive UIAction where
  | SummarizeTopic
  | AskQuestion
deriving DecidableEq

/-- One full rerun's worth of user input and environment: the sidebar
download button, the topic text field, the two oracles, the selected
action, the two generate buttons, and the question text field. -/
structure UIInput where
  downloadClicked : Bool
  topic : String
  wiki : WikiOracle
  llm : LlamaFn
  action : UIAction
  summaryClicked : Bool
  answerClicked : Bool
  question : String

/-- What one script rerun did: diagnostic messages from the fetch, how
many generation calls ran, the article contents handed to prompt
construction, and the generated results displayed. -/
structure RunTrace where
  errors : List String
  genCalls : Nat
  genContents : List String
  results : List String
deriving DecidableEq

/-- One top-to-bottom rerun of the script body (lines 77-112): sidebar
download button, topic gate (`if topic:`), content fetch, content gate
(`if wiki_text:`, false for `None` and for the empty string), model load,
then the action branch with its button / question-presence gates. -/
def run_app (inp : UIInput) (s0 : AppState) (fs : FSState) :
    AppState × FSState × RunTrace :=
  let fs1 := if inp.downloadClicked then (download_model fs).1 else fs
  if inp.topic.isEmpty then (s0, fs1, ⟨[], 0, [], []⟩)
  else
    let fetched := get_wiki_content inp.wiki inp.topic
    match fetched.1 with
    | none => (s0, fs1, ⟨fetched.2, 0, [], []⟩)
    | some wiki_text =>
      if wiki_text.isEmpty then (s0, fs1, ⟨fetched.2, 0, [], []⟩)
      else
        let s1 := (load_model s0).2
        match inp.action with
        | UIAction.SummarizeTopic =>
          if inp.summaryClicked then
            let summary := summarize_content inp.llm inp.topic wiki_text none
            (s1, fs1, ⟨fetched.2, 1, [wiki_text], [summary]⟩)
          else (s1, fs1, ⟨fetched.2, 0, [], []⟩)
        | UIAction.AskQuestion =>
          if inp.answerClicked && !inp.question.isEmpty then
            let answer := summarize_content inp.llm inp.topic wiki_text (some inp.question)
            (s1, fs1, ⟨fetched.2, 1, [wiki_text], [answer]⟩)
          else (s1, fs1, ⟨fetched.2, 0, [], []⟩)

/-! ## Helper lemmas -/

lemma load_model_cached (s : AppState) (h : Llama) (hc : s.cache = some h) :
    load_model s = (h, s) := by
  simp [load_model, hc]

lemma call_model_n_cached (n : Nat) (s : AppState) (h : Llama) (hc : s.cache = some h) :
    call_model_n n s = s := by
  induction n with
  | zero => rfl
  | succ n ih => simp only [call_model_n, load_model_cached s h hc, ih]

lemma load_model_sets_cache (s : AppState) :
    ((load_model s).2).cache = some (load_model s).1 := by
  cases hc : s.cache with
  | some h => rw [load_model_cached s h hc]; exact hc
  | none => unfold load_model; rw [hc]

lemma pySlice_length_le (s : String) (n : Nat) : (pySlice s n).length ≤ n := by
  show (s.data.take n).length ≤ n
  rw [List.length_take]
  omega

/-! ## Claims -/

/-- C1: the Model Handle is constructed at most once per process: after the
first `load_model` call, any number of further calls return the identical
handle instance and the construction count never increases. -/
theorem model_handle_singleton (s : AppState) (n : Nat) :
    (load_model (call_model_n n (load_model s).2)).1 = (load_model s).1 ∧
    (call_model_n n (load_model s).2).loadCount = ((load_model s).2).loadCount := by
  have hc := load_model_sets_cache s
  have hstable := call_model_n_cached n (load_model s).2 (load_model s).1 hc
  rw [hstable]
  exact ⟨by rw [load_model_cached _ _ hc], rfl⟩

lemma run_app_genContents_le (inp : UIInput) (s0 : AppState) (fs : FSState) :
    ∀ x ∈ (run_app inp s0 fs).2.2.genContents, x.length ≤ 6000 := by
  intro x hx
  unfold run_app at hx
  rcases hw : inp.wiki inp.topic with e | pg <;>
    simp only [get_wiki_content, hw] at hx
  · split at hx <;> simp_all
  · split at hx
    · simp_all
    · split at hx
      · simp_all
      · split at hx <;> split at hx <;> simp_all <;> exact pySlice_length_le _ _

/-- C2: for every topic that resolves to a page, `get_wiki_content`
returns the page content truncated to at most 6000 characters, and every
article content the UI flow hands to prompt construction has length at
most 6000. -/
theorem fetch_content_truncated (wiki : WikiOracle) (topic : String) (page : WikiPage)
    (h : wiki topic = Except.ok page) :
    ((get_wiki_content wiki topic).1 = some (pySlice page.content 6000) ∧
      ∀ s, (get_wiki_content wiki topic).1 = some s → s.length ≤ 6000) ∧
    ∀ (inp : UIInput) (s0 : AppState) (fs : FSState),
      ∀ x ∈ (run_app inp s0 fs).2.2.genContents, x.length ≤ 6000 := by
  refine ⟨⟨by simp [get_wiki_content, h], ?_⟩, fun inp s0 fs => run_app_genContents_le inp s0 fs⟩
  intro s hs
  simp only [get_wiki_content, h, Option.some.injEq] at hs
  rw [← hs]
  exact pySlice_length_le _ _

/-- Witness for C2 at a concrete resolving oracle and topic. -/
theorem fetch_content_truncated_witness :
    (get_wiki_content (fun _ => Except.ok ⟨"Quantum computing is a type of computation."⟩)
        "Quantum Computing").1 =
      some (pySlice "Quantum computing is a type of computation." 6000) :=
  ((fetch_content_truncated
      (fun _ => Except.ok ⟨"Quantum computing is a type of computation."⟩)
      "Quantum Computing" ⟨"Quantum computing is a type of computation."⟩ rfl).1).1

/-- C3: when the lookup oracle fails, `get_wiki_content` returns `None`,
does not raise, and emits exactly one diagnostic message. -/
theorem fetch_content_failure (wiki : WikiOracle) (topic e : String)
    (h : wiki topic = Except.error e) :
    (get_wiki_content wiki topic).1 = none ∧
    (get_wiki_content wiki topic).2.length = 1 := by
  simp [get_wiki_content, h]

/-- Witness for C3 at a concrete failing oracle and topic. -/
theorem fetch_content_failure_witness :
    (get_wiki_content (fun _ => Except.error "PageError") "Zzxyqplmnasdf123").1 = none ∧
    (get_wiki_content (fun _ => Except.error "PageError") "Zzxyqplmnasdf123").2.length = 1 :=
  fetch_content_failure (fun _ => Except.error "PageError") "Zzxyqplmnasdf123" "PageError" rfl

/-- C5: `download_model` checks for the artifact; when absent it creates
the directory and downloads once; when present no download occurs, and
(the file living inside the directory) the filesystem is unchanged. -/
theorem download_model_provisioning (fs : FSState) :
    (fs.modelFileExists = false →
      (download_model fs).1 = ⟨true, true⟩ ∧ (download_model fs).2.downloads = 1) ∧
    (fs.modelFileExists = true →
      (download_model fs).2.downloads = 0 ∧
      (fs.modelDirExists = true → (download_model fs).1 = fs)) := by
  constructor
  · intro h; simp [download_model, h]
  · intro h
    refine ⟨by simp [download_model, h], ?_⟩
    intro hd
    cases fs
    simp_all [download_model]

/-- Witness for C5 at the two concrete filesystem states. -/
theorem download_model_provisioning_witness :
    ((download_model ⟨false, false⟩).1 = ⟨true, true⟩ ∧
      (download_model ⟨false, false⟩).2.downloads = 1) ∧
    ((download_model ⟨true, true⟩).2.downloads = 0 ∧
      (download_model ⟨true, true⟩).1 = ⟨true, true⟩) :=
  ⟨(download_model_provisioning ⟨false, false⟩).1 rfl,
   ⟨((download_model_provisioning ⟨true, true⟩).2 rfl).1,
    ((download_model_provisioning ⟨true, true⟩).2 rfl).2 rfl⟩⟩

lemma answer_prompt_char1 (content question : String) :
    ((answer_prompt content question).data)[1]? = some 'Y' := by
  have h1 : ("\nYou are an AI assistant. Based on the Wikipedia content below,\nanswer the question clearly and concisely.\n\nWikipedia content:\n\"\"\"").data
      = '\n' :: 'Y' :: ("ou are an AI assistant. Based on the Wikipedia content below,\nanswer the question clearly and concisely.\n\nWikipedia content:\n\"\"\"").data := rfl
  simp only [answer_prompt, String.data_append, h1]
  simp

lemma summarize_prompt_char1 (topic content : String) :
    ((summarize_prompt topic content).data)[1]? = some 'S' := by
  have h1 : ("\nSummarize the following Wikipedia content about '").data
      = '\n' :: 'S' :: ("ummarize the following Wikipedia content about '").data := rfl
  simp only [summarize_prompt, String.data_append, h1]
  simp

/-- C4: `question = None` selects the summarize template, a non-empty
question selects the answer template, and for identical topic and content
the two branches build textually distinct prompts. -/
theorem respond_template_selection (topic content q : String) (hq : q ≠ "") :
    built_prompt topic content none = summarize_prompt topic content ∧
    built_prompt topic content (some q) = answer_prompt content q ∧
    built_prompt topic content (some q) ≠ built_prompt topic content none := by
  have hqe : q.isEmpty = false := by
    cases h : q.isEmpty with
    | false => rfl
    | true => exact absurd ((String.isEmpty_iff q).mp h) hq
  refine ⟨rfl, by simp [built_prompt, hqe], ?_⟩
  intro hcontra
  simp only [built_prompt, hqe, Bool.false_eq_true, if_false] at hcontra
  have h1 := answer_prompt_char1 content q
  rw [hcontra, summarize_prompt_char1] at h1
  exact absurd h1 (by decide)

/-- Witness for C4 at concrete topic, content, and question. -/
theorem respond_template_selection_witness :
    built_prompt "Quantum Computing" "Qubits." none =
        summarize_prompt "Quantum Computing" "Qubits." ∧
    built_prompt "Quantum Computing" "Qubits." (some "What is a qubit?") =
        answer_prompt "Qubits." "What is a qubit?" ∧
    built_prompt "Quantum Computing" "Qubits." (some "What is a qubit?") ≠
        built_prompt "Quantum Computing" "Qubits." none :=
  respond_template_selection "Quantum Computing" "Qubits." "What is a qubit?" (by decide)

/-- C9: whichever template is selected, the prompt contains the content
string verbatim as a contiguous substring, with no escaping applied. -/
theorem prompt_contains_content_verbatim (topic content : String) (q : Option String) :
    ∃ pre post : List Char,
      (built_prompt topic content q).data = pre ++ content.data ++ post := by
  rcases q with _ | q
  · exact ⟨("\nSummarize the following Wikipedia content about '").data ++
        (topic.data ++ ("' in a clear,\nstructured, and easy-to-read manner.\n\nWikipedia content:\n\"\"\"").data),
      ("\"\"\"\n\nSummary:\n").data,
      by simp [built_prompt, summarize_prompt, List.append_assoc]⟩
  · by_cases hqe : q.isEmpty
    · exact ⟨("\nSummarize the following Wikipedia content about '").data ++
          (topic.data ++ ("' in a clear,\nstructured, and easy-to-read manner.\n\nWikipedia content:\n\"\"\"").data),
        ("\"\"\"\n\nSummary:\n").data,
        by simp [built_prompt, hqe, summarize_prompt, List.append_assoc]⟩
    · exact ⟨("\nYou are an AI assistant. Based on the Wikipedia content below,\nanswer the question clearly and concisely.\n\nWikipedia content:\n\"\"\"").data,
        ("\"\"\"\n\nQuestion: ").data ++ (q.data ++ ("\nAnswer:\n").data),
        by simp [built_prompt, hqe, answer_prompt, List.append_assoc]⟩

/-- C10: prompt construction is deterministic — equal topic, content, and
question inputs build byte-for-byte identical prompts, and the whole
responder output is likewise determined by its inputs. -/
theorem prompt_deterministic (llm : LlamaFn) (t c : String) (q : Option String)
    (t' c' : String) (q' : Option String)
    (ht : t = t') (hc : c = c') (hq : q = q') :
    built_prompt t c q = built_prompt t' c' q' ∧
    summarize_content llm t c q = summarize_content llm t' c' q' := by
  subst ht; subst hc; subst hq
  exact ⟨rfl, rfl⟩

/-- Witness for C10 at concrete inputs and a concrete inference oracle. -/
theorem prompt_deterministic_witness :
    built_prompt "Quantum Computing" "Qubits." (some "What is a qubit?") =
        built_prompt "Quantum Computing" "Qubits." (some "What is a qubit?") ∧
    summarize_content (fun _ _ _ => ⟨[⟨" hello "⟩]⟩) "Quantum Computing" "Qubits."
        (some "What is a qubit?") =
      summarize_content (fun _ _ _ => ⟨[⟨" hello "⟩]⟩) "Quantum Computing" "Qubits."
        (some "What is a qubit?") :=
  prompt_deterministic (fun _ _ _ => ⟨[⟨" hello "⟩]⟩) "Quantum Computing" "Qubits."
    (some "What is a qubit?") "Quantum Computing" "Qubits." (some "What is a qubit?")
    rfl rfl rfl

lemma dropWhile_rdropWhile_dropWhile {α : Type*} (p : α → Bool) (l : List α) :
    List.dropWhile p (List.rdropWhile p (List.dropWhile p l)) =
      List.rdropWhile p (List.dropWhile p l) := by
  rcases hr : List.rdropWhile p (List.dropWhile p l) with _ | ⟨a, r⟩
  · rfl
  · obtain ⟨t, ht⟩ := List.rdropWhile_prefix p (List.dropWhile p l)
    rw [hr] at ht
    have hm : List.dropWhile p l = a :: (r ++ t) := by rw [← ht]; rfl
    have hhead := List.head?_dropWhile_not p l
    rw [hm] at hhead
    simp only [List.head?_cons] at hhead
    simp [List.dropWhile_cons, hhead]

lemma pyStrip_idem (s : String) : pyStrip (pyStrip s) = pyStrip s := by
  show String.mk (List.rdropWhile Char.isWhitespace (List.dropWhile Char.isWhitespace
      (List.rdropWhile Char.isWhitespace (List.dropWhile Char.isWhitespace s.data)))) =
    String.mk (List.rdropWhile Char.isWhitespace (List.dropWhile Char.isWhitespace s.data))
  rw [dropWhile_rdropWhile_dropWhile, List.rdropWhile_idempotent]

/-- C8: the string the responder returns is stripped of leading and
trailing whitespace — stripping it again leaves it unchanged. -/
theorem respond_output_stripped (llm : LlamaFn) (topic content : String)
    (q : Option String) :
    pyStrip (summarize_content llm topic content q) =
      summarize_content llm topic content q :=
  pyStrip_idem (((llm (built_prompt topic content q) 512 (6 / 10)).choices.headD ⟨""⟩).text)

/-- C6: when the content fetch yields `None`, the interactive shell makes
no model load and no generation call, and the interaction completes with
the state unchanged. -/
theorem fetch_none_no_model (inp : UIInput) (s0 : AppState) (fs : FSState)
    (h : (get_wiki_content inp.wiki inp.topic).1 = none) :
    (run_app inp s0 fs).1 = s0 ∧ (run_app inp s0 fs).2.2.genCalls = 0 := by
  unfold run_app
  rcases hw : inp.wiki inp.topic with e | pg
  · simp only [get_wiki_content, hw]
    constructor <;> (split <;> rfl)
  · simp [get_wiki_content, hw] at h

/-- Witness for C6 at a concrete failing topic. -/
theorem fetch_none_no_model_witness :
    (run_app
        ⟨false, "Zzxyqplmnasdf123", fun _ => Except.error "PageError",
          fun _ _ _ => ⟨[⟨"text"⟩]⟩, UIAction.SummarizeTopic, true, false, ""⟩
        ⟨none, 0, 0⟩ ⟨true, true⟩).1 = ⟨none, 0, 0⟩ ∧
    (run_app
        ⟨false, "Zzxyqplmnasdf123", fun _ => Except.error "PageError",
          fun _ _ _ => ⟨[⟨"text"⟩]⟩, UIAction.SummarizeTopic, true, false, ""⟩
        ⟨none, 0, 0⟩ ⟨true, true⟩).2.2.genCalls = 0 :=
  fetch_none_no_model
    ⟨false, "Zzxyqplmnasdf123", fun _ => Except.error "PageError",
      fun _ _ _ => ⟨[⟨"text"⟩]⟩, UIAction.SummarizeTopic, true, false, ""⟩
    ⟨none, 0, 0⟩ ⟨true, true⟩ rfl

/-- C7: in Ask-a-Question mode with an empty question, no generation call
is triggered, even when the answer button is pressed. -/
theorem empty_question_no_generation (inp : UIInput) (s0 : AppState) (fs : FSState)
    (ha : inp.action = UIAction.AskQuestion) (hq : inp.question = "") :
    (run_app inp s0 fs).2.2.genCalls = 0 := by
  have hqe : inp.question.isEmpty = true := by rw [hq]; rfl
  unfold run_app
  rcases hw : inp.wiki inp.topic with e | pg <;>
    simp [get_wiki_content, hw, ha, hqe] <;>
    (repeat' split) <;> rfl

/-- Witness for C7 at a concrete resolving topic, pressed button, and
empty question. -/
theorem empty_question_no_generation_witness :
    (run_app
        ⟨false, "Quantum Computing", fun _ => Except.ok ⟨"Qubits."⟩,
          fun _ _ _ => ⟨[⟨"text"⟩]⟩, UIAction.AskQuestion, false, true, ""⟩
        ⟨none, 0, 0⟩ ⟨true, true⟩).2.2.genCalls = 0 :=
  empty_question_no_generation
    ⟨false, "Quantum Computing", fun _ => Except.ok ⟨"Qubits."⟩,
      fun _ _ _ => ⟨[⟨"text"⟩]⟩, UIAction.AskQuestion, false, true, ""⟩
    ⟨none, 0, 0⟩ ⟨true, true⟩ rfl rfl

end WikipediaPhi2
